import Mathlib

/-!
Shallow embedding of the multi-agent graph orchestrator of `autotask_core`
(the graph-builder nodes, the supervisor/worker routing protocol and the
plan-execute-report loop), together with theorems settling the spec's
testable properties against it.

Source files embedded:
- `src/assistants/default_assistant.py` (main/reasoning agent nodes)
- `src/assistants/builders/team_graph_builder.py` (supervisor, team member)
- `src/assistants/high/default_assistant.py` (`make_supervisor_node`)
- `src/assistants/high/research/nodes.py` (coordinator, planner,
  background investigator, human feedback, step dispatcher, worker
  wrapper, reporter)
- `src/assistants/high/research/types.py` (Step, Plan, research State)

LLM and tool calls are external capabilities; every node that consults a
model takes the outcome of that call as an explicit oracle argument, so
that "performs no model call" is expressed as independence from the
oracle.  Python exceptions are `Except`; Python `None` is `Option`.
-/

namespace Autotask

/-- Role of a LangChain message (`system`/`user`(human)/`assistant`(AI)/`tool`). -/
inductive Role
  | system
  | user
  | assistant
  | tool
deriving DecidableEq, Repr

/-- A tool call carried by an AI message.  The orchestrator only ever reads
`tool_call.get("name")` and `tool_call.get("args", {}).get("locale")`
(coordinator_node, nodes.py:53-57), so those are the modelled fields. -/
structure ToolCall where
  name : String
  args_locale : Option String := none
deriving DecidableEq, Repr

/-- A LangChain message as consumed by the orchestrator: role, content, the
optional `name` tag, and the AI message's `tool_calls` list. -/
structure Message where
  role : Role
  content : String
  name : Option String := none
  tool_calls : List ToolCall := []
deriving DecidableEq, Repr

/-- Python string truthiness: non-empty. -/
def pyTruthyStr (s : String) : Bool := s ≠ ""

/-- Python `needle in haystack` substring test (for non-empty needles a
string contains `t` iff `splitOn t` yields more than one piece; the empty
needle is always contained). -/
def pyInStr (needle haystack : String) : Bool :=
  needle.length = 0 || (haystack.splitOn needle).length > 1

/-! ### Model of `re.search(r'\{.*\}', content, re.DOTALL)`

With DOTALL the leftmost match of this greedy pattern starts at the first
opening brace and ends at the last closing brace of the whole string, and a
match exists iff some closing brace occurs strictly after the first opening
brace (both supervisor implementations use exactly this pattern:
team_graph_builder.py:81, high/default_assistant.py:73). -/

/-- Index of the first occurrence of `c` in `cs`, if any. -/
def firstIdxOf (c : Char) (cs : List Char) : Option Nat :=
  cs.findIdx? (· = c)

/-- Index of the last occurrence of `c` in `cs`, if any. -/
def lastIdxOf (c : Char) (cs : List Char) : Option Nat :=
  match (cs.reverse).findIdx? (· = c) with
  | some k => some (cs.length - 1 - k)
  | none => none

/-- `re.search(r'\{.*\}', content, re.DOTALL)`: the substring from the first
opening brace to the last closing brace, when the latter lies strictly
after the former. -/
def regexSearchBraces (content : String) : Option String :=
  let cs := content.toList
  match firstIdxOf '\x7b' cs, lastIdxOf '\x7d' cs with
  | some i, some j => if i < j then some ⟨(cs.drop i).take (j - i + 1)⟩ else none
  | _, _ => none

/-! ### Model of `json.loads` on routing decisions

The supervisor routing protocol instructs the model to reply with a flat
JSON object of string fields (`{"next": "<member>"}`); this parser models
`json.loads` on that fragment: a single object whose keys and values are
JSON strings, surrounded by optional whitespace.  Any other input is a
parse failure (which both supervisors turn into their default decision). -/

/-- Drop leading JSON whitespace. -/
def skipWs (cs : List Char) : List Char :=
  cs.dropWhile (fun c => c = ' ' || c = '\n' || c = '\t' || c = '\r')

/-- Parse the body of a JSON string (after the opening quote), handling the
single-character escapes; fails on a dangling backslash, an unsupported
escape or a missing closing quote. -/
def parseJStringAux : List Char → List Char → Option (String × List Char)
  | [], _ => none
  | '"' :: rest, acc => some (String.mk acc.reverse, rest)
  | '\\' :: c :: rest, acc =>
    if c = '"' then parseJStringAux rest ('"' :: acc)
    else if c = '\\' then parseJStringAux rest ('\\' :: acc)
    else if c = '/' then parseJStringAux rest ('/' :: acc)
    else if c = 'n' then parseJStringAux rest ('\n' :: acc)
    else if c = 't' then parseJStringAux rest ('\t' :: acc)
    else if c = 'r' then parseJStringAux rest ('\r' :: acc)
    else none
  | ['\\'], _ => none
  | c :: rest, acc => parseJStringAux rest (c :: acc)

/-- Parse a JSON string literal from the front of `cs`. -/
def parseJString (cs : List Char) : Option (String × List Char) :=
  match cs with
  | '"' :: rest => parseJStringAux rest []
  | _ => none

/-- Parse `"key": "value"` pairs separated by commas up to the closing
brace (fuelled recursion; the fuel is the input length, which bounds the
number of pairs). -/
def parsePairsAux : Nat → List Char → List (String × String) →
    Option (List (String × String) × List Char)
  | 0, _, _ => none
  | fuel + 1, cs, acc =>
    match parseJString (skipWs cs) with
    | none => none
    | some (key, rest) =>
      match skipWs rest with
      | ':' :: rest2 =>
        match parseJString (skipWs rest2) with
        | none => none
        | some (val, rest3) =>
          match skipWs rest3 with
          | ',' :: rest4 => parsePairsAux fuel rest4 ((key, val) :: acc)
          | '\x7d' :: rest5 => some (((key, val) :: acc).reverse, rest5)
          | _ => none
      | _ => none

/-- `json.loads` on the flat string-object fragment of JSON used by the
routing protocol; `none` is a parse failure (`json.JSONDecodeError`). -/
def jsonLoadsStrObj (s : String) : Option (List (String × String)) :=
  match skipWs s.toList with
  | '\x7b' :: rest =>
    match skipWs rest with
    | '\x7d' :: rest2 => if (skipWs rest2).isEmpty then some [] else none
    | _ =>
      match parsePairsAux (rest.length + 1) rest [] with
      | some (pairs, rest2) => if (skipWs rest2).isEmpty then some pairs else none
      | none => none
  | _ => none

/-- Python `dict.get(k, default)`; a duplicated key keeps its last binding,
hence the reversed lookup. -/
def pyDictGetD (d : List (String × String)) (k dflt : String) : String :=
  (d.reverse.lookup k).getD dflt

/-! ## Team/supervisor topology (`src/assistants/builders/team_graph_builder.py`,
`src/assistants/default_assistant.py`) -/

/-- The state threaded through the team topology (`graph_state.State`): the
message history, the externally settable cancellation flag and the routing
target — the three fields the embedded nodes read. -/
structure TeamState where
  messages : List Message := []
  should_stop : Bool := false
  next : Option String := none
deriving DecidableEq, Repr

/-- The `update` dict of a team-topology `Command`: a message delta and the
`next` routing target. -/
structure TeamUpdate where
  messages : List Message := []
  next : Option String := none
deriving DecidableEq, Repr

/-- `langgraph.types.Command` as returned by the team nodes. -/
structure TeamCommand where
  goto : String
  update : TeamUpdate := {}
deriving DecidableEq, Repr

/-- The two model invocations a supervisor node may perform:
`structured` is the outcome of `with_structured_output(...).ainvoke`
(`.ok next` on success, `.error` when it raises), `raw` is the `content`
of the plain `ainvoke` used by the fallback tier. -/
structure SupervisorLLM where
  structured : Except Unit String
  raw : String

/-- The fallback tier of `TeamGraphBuilder.team_supervisor_node`
(team_graph_builder.py:70-97): extract a JSON object by regex and read its
`next` field (default `"supervisor"`); failing a regex match, scan the raw
text for a literal member name or `FINISH`; failing everything, default to
`"supervisor"` with a logged warning. -/
def supervisorFallbackParse (member_names : List String) (content : String) : String :=
  match regexSearchBraces content with
  | some json_str =>
    match jsonLoadsStrObj json_str with
    | some d => pyDictGetD d "next" "supervisor"
    | none => "supervisor"
  | none =>
    match (member_names ++ ["FINISH"]).find? (fun n => pyInStr n content) with
    | some n => n
    | none => "supervisor"

/-- `TeamGraphBuilder.team_supervisor_node` (team_graph_builder.py:27-111):
short-circuit on `should_stop`; otherwise obtain a routing decision
(structured output, falling back to `supervisorFallbackParse`), map
`FINISH` to the end sentinel, map an unknown member name to `"supervisor"`,
and return `Command(goto, update={"next": goto})`.  `member_names` is the
name list of `get_team_members()` (the assistant itself plus its team). -/
def team_supervisor_node (member_names : List String) (llm : SupervisorLLM)
    (state : TeamState) : TeamCommand :=
  if state.should_stop then ⟨"__end__", {next := some "__end__"}⟩
  else
    let selected_name :=
      match llm.structured with
      | .ok nxt => nxt
      | .error _ => supervisorFallbackParse member_names llm.raw
    let goto :=
      if selected_name = "FINISH" then "__end__"
      else if member_names.contains selected_name then selected_name
      else "supervisor"
    ⟨goto, {next := some goto}⟩

/-- `TeamGraphBuilder.get_tools_node_name` (team_graph_builder.py:22-24):
each member's dedicated tool node is named `tools_<member_name>`. -/
def get_tools_node_name (member_name : String) : String :=
  "tools_" ++ member_name

/-- `TeamGraphBuilder.team_member_node` (team_graph_builder.py:114-150).
`agentResult` is the dict returned by the member's `main_agent_node`
(`none` when it carries no `"messages"` key).  The last message of a
non-empty result routes to the member's tool node when it requests tool
calls, and is otherwise wrapped as a human message
`"<member>: <content>"` tagged with the member's name and routed to the
supervisor. -/
def team_member_node (member_names : List String) (member_name : String)
    (agentResult : Option (List Message)) (state : TeamState) : TeamCommand :=
  if state.should_stop then ⟨"__end__", {next := some "__end__"}⟩
  else if ¬ member_names.contains member_name then
    ⟨"supervisor", {next := some "supervisor"}⟩
  else
    match agentResult with
    | some msgs =>
      match msgs.getLast? with
      | some last_message =>
        if last_message.tool_calls ≠ [] then
          let nxt := get_tools_node_name member_name
          ⟨nxt, {messages := [last_message], next := some nxt}⟩
        else
          let content := member_name ++ ": " ++ last_message.content
          let new_message : Message :=
            {role := .user, content := content, name := some member_name}
          ⟨"supervisor", {messages := [new_message], next := some "supervisor"}⟩
      | none => ⟨"supervisor", {next := some "supervisor"}⟩
    | none => ⟨"supervisor", {next := some "supervisor"}⟩

/-- The dict returned by the main/reasoning agent nodes
(`{"messages": [...]}`). -/
structure AgentUpdate where
  messages : List Message
deriving DecidableEq, Repr

/-- The fixed cancellation notice of the agent nodes
(default_assistant.py:50). -/
def stoppedMessage : Message :=
  {role := .assistant, content := "task is stopped by user"}

/-- `DefaultAssistant.main_agent_node` (default_assistant.py:47-54): on
`should_stop` return the fixed stopped message; otherwise prepend the
persona system message, truncate the history (`trunc_messages`, an
inherited helper taken as the argument `trunc`) and append the model
response.  It returns a bare update dict — no `Command`, no goto. -/
def main_agent_node (llm : List Message → Message) (system_message : String)
    (trunc : List Message → List Message) (state : TeamState) : AgentUpdate :=
  if state.should_stop then ⟨[stoppedMessage]⟩
  else
    let messages := trunc ({role := .system, content := system_message} :: state.messages)
    ⟨[llm messages]⟩

/-- `DefaultAssistant.reasoning_agent_node` (default_assistant.py:56-63):
identical contract to the main agent node, against the reasoning persona
and model. -/
def reasoning_agent_node (llm : List Message → Message) (system_message : String)
    (trunc : List Message → List Message) (state : TeamState) : AgentUpdate :=
  if state.should_stop then ⟨[stoppedMessage]⟩
  else
    let messages := trunc ({role := .system, content := system_message} :: state.messages)
    ⟨[llm messages]⟩

/-! ## `make_supervisor_node` (`src/assistants/high/default_assistant.py:29-96`) -/

/-- The routing decision of `make_supervisor_node`'s inner
`supervisor_node` before the `FINISH` mapping: the structured `next` when
available; otherwise regex-extract a JSON object and read its `next` field
(default `"FINISH"`); otherwise scan for a literal option token (the
options being `"FINISH"` followed by the member names, in that order);
otherwise `"FINISH"`. -/
def makeSupervisorSelect (members : List String) (llm : SupervisorLLM) : String :=
  match llm.structured with
  | .ok nxt => nxt
  | .error _ =>
    match regexSearchBraces llm.raw with
    | some json_str =>
      match jsonLoadsStrObj json_str with
      | some d => pyDictGetD d "next" "FINISH"
      | none => "FINISH"
    | none =>
      match ("FINISH" :: members).find? (fun n => pyInStr n llm.raw) with
      | some n => n
      | none => "FINISH"

/-- `make_supervisor_node`'s `supervisor_node`
(high/default_assistant.py:46-94): map `FINISH` to the end sentinel and
return `Command(goto, update={"next": goto})`.  Unlike
`team_supervisor_node` it performs no membership check: any other decision
string is forwarded as the goto unchanged. -/
def make_supervisor_node_cmd (members : List String) (llm : SupervisorLLM) : TeamCommand :=
  let goto0 := makeSupervisorSelect members llm
  let goto := if goto0 = "FINISH" then "__end__" else goto0
  ⟨goto, {next := some goto}⟩

/-! ## Plan-execute-report topology
(`src/assistants/high/research/types.py`, `src/assistants/high/research/nodes.py`) -/

/-- `Step` (types.py:6-11).  Note the field names: the model defines
`assigned_to` and `step_type`; it has no `member_name` field. -/
structure Step where
  assigned_to : String
  title : String
  description : String
  step_type : String
  execution_res : Option String := none
deriving DecidableEq, Repr

/-- Python truthiness of `step.execution_res` — the dispatcher and the
worker wrapper both test `if not step.execution_res`, so `None` and the
empty string alike mean "not yet executed". -/
def Step.isPending (st : Step) : Bool :=
  match st.execution_res with
  | none => true
  | some r => r = ""

/-- Python attribute lookup on a `Step` for string-valued attributes:
exactly the fields declared in types.py resolve; any other attribute
raises `AttributeError`, which is how `research_team_node`'s read of
`step.member_name` behaves at run time. -/
def Step.getAttrStr (st : Step) (attr : String) : Except (String × String) String :=
  if attr = "assigned_to" then .ok st.assigned_to
  else if attr = "title" then .ok st.title
  else if attr = "description" then .ok st.description
  else if attr = "step_type" then .ok st.step_type
  else .error ("Step", attr)

/-- `Plan` (types.py:13-18). -/
structure Plan where
  locale : String
  has_enough_context : Bool
  thought : String
  title : String
  steps : List Step := []
deriving DecidableEq, Repr

/-- The `current_plan` field of the research state
(`current_plan: Plan | str = None`, types.py:25): unset, a raw textual
draft, or a validated plan. -/
inductive CurrentPlan
  | unset
  | raw (s : String)
  | plan (p : Plan)
deriving DecidableEq, Repr

/-- The research `State` (types.py:20-33), restricted to the fields the
embedded nodes read.  `locale` is `Option` because the nodes read it with
`state.get("locale", "en-US")`. -/
structure RState where
  messages : List Message := []
  locale : Option String := none
  observations : List String := []
  plan_iterations : Nat := 0
  current_plan : CurrentPlan := .unset
  final_report : String := ""
  enable_background_investigation : Bool := true
  team_members : List (String × String) := []
deriving DecidableEq, Repr

/-- The `update` dict of a research-topology `Command`; `none` means the
key is absent from the dict.  `final_report` also covers the bare dict the
reporter returns. -/
structure RUpdate where
  messages : List Message := []
  locale : Option String := none
  current_plan : Option CurrentPlan := none
  plan_iterations : Option Nat := none
  observations : Option (List String) := none
  final_report : Option String := none
deriving DecidableEq, Repr

/-- `langgraph.types.Command` as returned by the research nodes. -/
structure RCommand where
  goto : String
  update : RUpdate := {}
deriving DecidableEq, Repr

/-- Applying a node's update to the state, per the langgraph channel
semantics the graph is compiled with: `messages` has the `add_messages`
reducer (append), every other channel overwrites when the key is present
and is untouched when it is absent. -/
def RState.applyUpdate (s : RState) (u : RUpdate) : RState :=
  { s with
    messages := s.messages ++ u.messages
    locale := match u.locale with | some l => some l | none => s.locale
    current_plan := u.current_plan.getD s.current_plan
    plan_iterations := u.plan_iterations.getD s.plan_iterations
    observations := u.observations.getD s.observations
    final_report := u.final_report.getD s.final_report }

/-- Run-level failures of the research nodes: a Python `AttributeError`
(object class, attribute), an `IndexError`, or a goto naming no registered
node. -/
inductive RunError
  | attributeError (obj attr : String)
  | indexError
  | unknownNode (name : String)
deriving DecidableEq, Repr

/-- The first tool call named `handoff_to_planner` carrying a truthy
`locale` argument decides the locale override (coordinator_node,
nodes.py:52-58: calls with other names are skipped with `continue`, a
handoff call with a falsy locale does not break the loop). -/
def findHandoffLocale (tcs : List ToolCall) : Option String :=
  match tcs.find? (fun tc =>
      tc.name = "handoff_to_planner" &&
      (match tc.args_locale with | some l => pyTruthyStr l | none => false)) with
  | some tc => tc.args_locale
  | none => none

/-- The coordinator's model invocation: `llm.bind_tools([handoff_to_planner])
.invoke(messages)` either returns a response (of which only `tool_calls`
is consumed) or raises. -/
structure CoordResponse where
  tool_calls : List ToolCall := []
deriving DecidableEq, Repr

/-- `coordinator_node` (nodes.py:31-73): end the run on an empty incoming
message list, or when the model raises, or when the response carries no
tool call; otherwise route to the planner (or the background investigator
when enabled), updating the locale.  Every path returns a normal
`Command`; no error is surfaced. -/
def coordinator_node (llm : Except Unit CoordResponse) (state : RState) : RCommand :=
  if state.messages.isEmpty then ⟨"__end__", {}⟩
  else
    match llm with
    | .error _ => ⟨"__end__", {}⟩
    | .ok response =>
      let locale := state.locale.getD "en-US"
      if response.tool_calls.length > 0 then
        let goto :=
          if state.enable_background_investigation then "background_investigator"
          else "planner"
        let locale := (findHandoffLocale response.tool_calls).getD locale
        ⟨goto, {locale := some locale}⟩
      else
        ⟨"__end__", {locale := some locale}⟩

/-- Minimal JSON escaping for `planToJson`. -/
def jsonEscape (s : String) : String :=
  s.foldl (fun acc c =>
    if c = '"' then acc ++ "\\\""
    else if c = '\\' then acc ++ "\\\\"
    else acc ++ String.singleton c) ""

/-- `response.model_dump_json` of a `Step`. -/
def stepToJson (st : Step) : String :=
  "\x7b\"assigned_to\": \"" ++ jsonEscape st.assigned_to ++
  "\", \"title\": \"" ++ jsonEscape st.title ++
  "\", \"description\": \"" ++ jsonEscape st.description ++
  "\", \"step_type\": \"" ++ jsonEscape st.step_type ++ "\"" ++
  (match st.execution_res with
   | some r => ", \"execution_res\": \"" ++ jsonEscape r ++ "\""
   | none => "") ++ "\x7d"

/-- `response.model_dump_json` of a `Plan` (the `full_response` string the
planner posts as its AI message; `exclude_none` drops unset fields). -/
def planToJson (p : Plan) : String :=
  "\x7b\"locale\": \"" ++ jsonEscape p.locale ++
  "\", \"has_enough_context\": " ++ (if p.has_enough_context then "true" else "false") ++
  ", \"thought\": \"" ++ jsonEscape p.thought ++
  "\", \"title\": \"" ++ jsonEscape p.title ++
  "\", \"steps\": [" ++ String.intercalate ", " (p.steps.map stepToJson) ++ "]\x7d"

/-- The planner's model invocation
(`llm.with_structured_output(Plan, method="json_mode").invoke`): `.ok p`
when the whole try block's plan acquisition succeeds (the
serialize/`repair_json_output`/`json.loads`/`model_validate` round trip on
a valid pydantic `Plan` is the identity), `.error` when any step of it
raises. -/
def PlannerOutcome : Type := Except Unit Plan

/-- The runnable config consumed by the planner
(`config.get("max_plan_iterations", 1)`). -/
structure RConfig where
  max_plan_iterations : Nat := 1
deriving DecidableEq, Repr

/-- `planner_node` (nodes.py:79-151): at or beyond the iteration ceiling,
go straight to the reporter (before any model concern); with no language
model configured (`reasoning_llm or main_llm` empty), log and end the run;
on a successful plan with enough context, store it and go to the reporter
without incrementing the counter; on a plan lacking context, store it,
increment `plan_iterations` and go to the step dispatcher
(`research_team`); when the model invocation raises, go to the reporter if
at least one iteration already happened, else end the run.  Every path is
a normal `Command`. -/
def planner_node (main_llm reasoning_llm : Option PlannerOutcome)
    (cfg : RConfig) (state : RState) : RCommand :=
  let plan_iterations := state.plan_iterations
  if plan_iterations ≥ cfg.max_plan_iterations then ⟨"reporter", {}⟩
  else
    match reasoning_llm <|> main_llm with
    | none => ⟨"__end__", {}⟩
    | some outcome =>
      match outcome with
      | .error _ => if plan_iterations > 0 then ⟨"reporter", {}⟩ else ⟨"__end__", {}⟩
      | .ok plan =>
        let full_response := planToJson plan
        let planner_msg : Message :=
          {role := .assistant, content := full_response, name := some "planner"}
        if plan.has_enough_context then
          ⟨"reporter", {messages := [planner_msg], current_plan := some (.plan plan)}⟩
        else
          ⟨"research_team",
           {messages := [planner_msg], current_plan := some (.plan plan),
            plan_iterations := some (plan_iterations + 1)}⟩

/-- `background_investigation_node` (nodes.py:155-161): reads
`state["messages"][-1]` (an `IndexError` on an empty history) and passes
through to the planner. -/
def background_investigation_node (state : RState) : Except RunError RCommand :=
  if state.messages.isEmpty then .error .indexError
  else .ok ⟨"planner", {}⟩

/-- `human_feedback_node` (nodes.py:163-172): auto-accept the plan,
increment `plan_iterations` and proceed to the step dispatcher. -/
def human_feedback_node (state : RState) : RCommand :=
  ⟨"research_team", {plan_iterations := some (state.plan_iterations + 1)}⟩

/-- `research_team_node` — the step dispatcher (nodes.py:174-191): with no
plan or no steps, ask the planner; otherwise take the first step whose
`execution_res` is unset and read `step.member_name` — an attribute the
`Step` model does not define, so the read raises `AttributeError`; were it
to resolve, a known team member would be the goto and anything else would
fall back to the planner.  A truthy raw-string plan has no `steps`
attribute either. -/
def research_team_node (state : RState) : Except RunError RCommand :=
  match state.current_plan with
  | .unset => .ok ⟨"planner", {}⟩
  | .raw s => if s = "" then .ok ⟨"planner", {}⟩ else .error (.attributeError "str" "steps")
  | .plan p =>
    if p.steps.isEmpty then .ok ⟨"planner", {}⟩
    else
      match p.steps.find? Step.isPending with
      | some step =>
        match step.getAttrStr "member_name" with
        | .error (obj, attr) => .error (.attributeError obj attr)
        | .ok member_name =>
          if (state.team_members.map Prod.fst).contains member_name then
            .ok ⟨member_name, {}⟩
          else .ok ⟨"planner", {}⟩
      | none => .ok ⟨"planner", {}⟩

/-- Replace the first pending step's `execution_res` (the in-place
mutation `current_step.execution_res = response_content` of the worker
wrapper). -/
def fillFirstPending (steps : List Step) (res : String) : List Step :=
  match steps with
  | [] => []
  | st :: rest =>
    if st.isPending then {st with execution_res := some res} :: rest
    else st :: fillFirstPending rest res

/-- `_execute_agent_step` (nodes.py:194-289): find the first pending step
(an absent or raw plan has no `steps` attribute); with none, hand back to
the dispatcher; otherwise invoke the assigned agent (`agentResp` is its
final response content for the current step), record the response into the
step, append it as a name-tagged human message and as an observation, and
go back to the dispatcher. -/
def execute_agent_step (agentResp : Step → String) (agent_name : String)
    (state : RState) : Except RunError RCommand :=
  match state.current_plan with
  | .unset => .error (.attributeError "NoneType" "steps")
  | .raw _ => .error (.attributeError "str" "steps")
  | .plan p =>
    match p.steps.find? Step.isPending with
    | none => .ok ⟨"research_team", {}⟩
    | some current_step =>
      let response_content := agentResp current_step
      .ok ⟨"research_team",
        {messages := [{role := .user, content := response_content, name := some agent_name}],
         observations := some (state.observations ++ [response_content]),
         current_plan := some (.plan {p with steps := fillFirstPending p.steps response_content})}⟩

/-- `reporter_node` (nodes.py:293-346): read `current_plan.title` and
`current_plan.thought` unconditionally (an unset plan raises
`AttributeError` on `title`; a raw-string plan has a `title` method but no
`thought`), build the synthesis prompt from the plan header and the
accumulated observations, invoke the model once (`llm` maps the task
content and the observations to the response content) and return the bare
patch `{"final_report": ...}`. -/
def reporter_node (llm : String → List String → String) (state : RState) :
    Except RunError RUpdate :=
  match state.current_plan with
  | .unset => .error (.attributeError "NoneType" "title")
  | .raw _ => .error (.attributeError "str" "thought")
  | .plan p =>
    let task_content :=
      "# Research Requirements\n\n## Task\n\n" ++ p.title ++
      "\n\n## Description\n\n" ++ p.thought
    .ok {final_report := some (llm task_content state.observations)}

/-! ## The research graph and its executor
(`ResearchAssistant.build`, research_assistant.py:56-94, and the langgraph
driving loop) -/

/-- The external capabilities of one research run, node by node: each field
is the outcome of the model invocation the corresponding node would
perform on this run.  `planner_main`/`planner_reasoning` are `none` when
the respective model is not configured. -/
structure ResearchOracles where
  coordinator : Except Unit CoordResponse
  planner_main : Option PlannerOutcome
  planner_reasoning : Option PlannerOutcome
  reporter : String → List String → String
  worker : String → Step → String

/-- One executor step of the compiled research graph: invoke the node
registered under `node` (research_assistant.py:69-87 registers the six
core nodes plus one worker node per team member) and return its command;
the reporter's bare patch flows to the wired `reporter → END` edge.  A
goto naming no registered node is a run failure. -/
def researchStep (O : ResearchOracles) (cfg : RConfig) (workerNames : List String)
    (state : RState) (node : String) : Except RunError RCommand :=
  if node = "coordinator" then .ok (coordinator_node O.coordinator state)
  else if node = "background_investigator" then background_investigation_node state
  else if node = "planner" then
    .ok (planner_node O.planner_main O.planner_reasoning cfg state)
  else if node = "human_feedback" then .ok (human_feedback_node state)
  else if node = "research_team" then research_team_node state
  else if node = "reporter" then
    (reporter_node O.reporter state).map (fun u => ⟨"__end__", u⟩)
  else if workerNames.contains node then execute_agent_step (O.worker node) node state
  else .error (.unknownNode node)

/-- The executor loop (spec §4.5): starting from `node`, repeatedly invoke
the current node, apply its update and follow its goto until the end
sentinel; the result is the list of nodes invoked, in order, with the
final state.  `fuel` bounds the loop. -/
def runResearch (O : ResearchOracles) (cfg : RConfig) (workerNames : List String) :
    Nat → RState → String → Except RunError (List String × RState)
  | 0, state, _ => .ok ([], state)
  | fuel + 1, state, node =>
    if node = "__end__" then .ok ([], state)
    else
      match researchStep O cfg workerNames state node with
      | .error e => .error e
      | .ok cmd =>
        match runResearch O cfg workerNames fuel (state.applyUpdate cmd.update) cmd.goto with
        | .error e => .error e
        | .ok (trace, final) => .ok (node :: trace, final)

/-! ## Concrete fixtures -/

/-- A sample incoming user message. -/
def sampleUserMessage : Message := {role := .user, content := "hello"}

/-- The model output of the supervisor-fallback property (spec §8). -/
def c5content : String :=
  "I think we should ask Researcher next. \x7b\"next\": \"Researcher\"\x7d"

/-- A model output naming a member that does not exist. -/
def ghostContent : String :=
  "I think we should ask Ghostwriter next. \x7b\"next\": \"Ghostwriter\"\x7d"

/-- Step A, already executed. -/
def sampleStepDone : Step :=
  {assigned_to := "researcher", title := "A", description := "collect A",
   step_type := "research", execution_res := some "done"}

/-- Step B, pending. -/
def sampleStepB : Step :=
  {assigned_to := "researcher", title := "B", description := "collect B",
   step_type := "research"}

/-- Step C, pending. -/
def sampleStepC : Step :=
  {assigned_to := "researcher", title := "C", description := "collect C",
   step_type := "research"}

/-- A plan with steps `[A(done), B(pending), C(pending)]`, all assigned to
the registered member `researcher`. -/
def samplePlanABC : Plan :=
  {locale := "en-US", has_enough_context := false, thought := "investigate",
   title := "plan", steps := [sampleStepDone, sampleStepB, sampleStepC]}

/-- A dispatcher state holding `samplePlanABC` with `researcher` registered
as a team member. -/
def dispatchState : RState :=
  {current_plan := .plan samplePlanABC, team_members := [("researcher", "agent")]}

/-- A first-draft plan whose `has_enough_context` is false. -/
def draftPlan : Plan :=
  {locale := "en-US", has_enough_context := false, thought := "t", title := "T"}

/-- Oracles of the §8 scenario run: the coordinator's model hands off to
the planner, the planner's model produces `draftPlan`. -/
def scenarioOracles : ResearchOracles :=
  {coordinator := .ok {tool_calls := [{name := "handoff_to_planner", args_locale := some "en-US"}]}
   planner_main := some (.ok draftPlan)
   planner_reasoning := none
   reporter := fun _ _ => "the final report"
   worker := fun _ _ => "finding"}

/-- Initial state of the §8 scenario run (background investigation off). -/
def scenarioInit : RState :=
  {messages := [sampleUserMessage], enable_background_investigation := false}

/-- The nodes the §8 scenario run invokes, in order. -/
def scenarioTrace : List String :=
  ["coordinator", "planner", "research_team", "planner", "reporter"]

/-- A worker reply requesting a tool call. -/
def toolCallMessage : Message :=
  {role := .assistant, content := "", tool_calls := [{name := "search"}]}

/-- A plain worker reply. -/
def plainReplyMessage : Message :=
  {role := .assistant, content := "done the work"}

/-! ## Claims -/

/-- C1, counterexample: at a state with `should_stop = true` the team
supervisor node does return the terminal goto, but its update appends no
message at all — there is no fixed cancellation notice in any supervisor
`Command`, refuting "every Capability Node type returns a Command ... whose
appended message is the fixed cancellation notice". -/
theorem c1_cancellation_counterexample :
    team_supervisor_node ["Researcher"] ⟨.ok "Researcher", ""⟩
        {messages := [sampleUserMessage], should_stop := true} =
      ⟨"__end__", {messages := [], next := some "__end__"}⟩ ∧
    (team_supervisor_node ["Researcher"] ⟨.ok "Researcher", ""⟩
        {messages := [sampleUserMessage], should_stop := true}).update.messages = [] :=
  ⟨rfl, rfl⟩

/-- C1, amended: on `should_stop`, the team supervisor and team member
nodes return `Command(goto="__end__", update={"next": "__end__"})` with no
appended message, and the main-agent and reasoning-agent nodes return the
bare patch `{"messages": [AIMessage("task is stopped by user")]}` with no
goto; all four are independent of the model oracle (no model call).  The
research nodes (coordinator, planner, dispatcher, reporter) do not consult
a cancellation flag at all — their state has none. -/
theorem c1_cancellation_amended :
    (∀ (members : List String) (llm : SupervisorLLM) (s : TeamState),
      s.should_stop = true →
      team_supervisor_node members llm s = ⟨"__end__", {next := some "__end__"}⟩) ∧
    (∀ (members : List String) (name : String) (res : Option (List Message))
      (s : TeamState), s.should_stop = true →
      team_member_node members name res s = ⟨"__end__", {next := some "__end__"}⟩) ∧
    (∀ (llm : List Message → Message) (sys : String)
      (tr : List Message → List Message) (s : TeamState), s.should_stop = true →
      main_agent_node llm sys tr s = ⟨[stoppedMessage]⟩) ∧
    (∀ (llm : List Message → Message) (sys : String)
      (tr : List Message → List Message) (s : TeamState), s.should_stop = true →
      reasoning_agent_node llm sys tr s = ⟨[stoppedMessage]⟩) := by
  refine ⟨fun members llm s h => ?_, fun members name res s h => ?_,
    fun llm sys tr s h => ?_, fun llm sys tr s h => ?_⟩ <;>
    simp [team_supervisor_node, team_member_node, main_agent_node,
      reasoning_agent_node, h]

/-- C1, witness: the amended behaviors at concrete inputs. -/
theorem c1_cancellation_witness :
    team_supervisor_node ["Researcher"] ⟨.ok "Researcher", "raw"⟩
        {should_stop := true} = ⟨"__end__", {next := some "__end__"}⟩ ∧
    main_agent_node (fun _ => sampleUserMessage) "persona" id {should_stop := true} =
      ⟨[stoppedMessage]⟩ :=
  ⟨c1_cancellation_amended.1 ["Researcher"] ⟨.ok "Researcher", "raw"⟩
      {should_stop := true} rfl,
   c1_cancellation_amended.2.2.1 (fun _ => sampleUserMessage) "persona" id
      {should_stop := true} rfl⟩

/-- C2: on a plan `[A(done), B(pending), C(pending)]` whose steps are all
assigned to the registered member `researcher`, the dispatcher does select
the first pending step `B`, but then raises
`AttributeError: 'Step' object has no attribute 'member_name'` instead of
returning `Command(goto="researcher")`: `research_team_node`
(nodes.py:186) reads `step.member_name` while the `Step` model it is
handed (types.py:6-11) defines `assigned_to`. -/
theorem c2_dispatcher_attribute_error :
    samplePlanABC.steps.find? Step.isPending = some sampleStepB ∧
    sampleStepB.assigned_to = "researcher" ∧
    (dispatchState.team_members.map Prod.fst).contains "researcher" = true ∧
    research_team_node dispatchState =
      .error (.attributeError "Step" "member_name") :=
  ⟨rfl, rfl, rfl, rfl⟩

/-- C3: at or beyond the iteration ceiling the planner's command is
`Command(goto="reporter")` with an empty update, for every model oracle
(the guard precedes any model concern) — in particular the goto is never
the step dispatcher. -/
theorem c3_planner_iteration_ceiling (main_llm reasoning_llm : Option PlannerOutcome)
    (cfg : RConfig) (state : RState)
    (h : state.plan_iterations ≥ cfg.max_plan_iterations) :
    planner_node main_llm reasoning_llm cfg state = ⟨"reporter", {}⟩ ∧
    (planner_node main_llm reasoning_llm cfg state).goto ≠ "research_team" := by
  have hp : planner_node main_llm reasoning_llm cfg state = ⟨"reporter", {}⟩ := by
    unfold planner_node
    simp [h]
  refine ⟨hp, ?_⟩
  rw [hp]
  decide

/-- C3, witness. -/
theorem c3_planner_iteration_ceiling_witness :
    planner_node none none {max_plan_iterations := 1} {plan_iterations := 1} =
      ⟨"reporter", {}⟩ :=
  (c3_planner_iteration_ceiling none none {max_plan_iterations := 1}
    {plan_iterations := 1} (Nat.le_refl 1)).1

/-- C4, counterexample: in the §8 scenario (plan-execute topology,
`max_plan_iterations = 1`, first draft with `has_enough_context = false`)
the run visits `coordinator, planner, research_team, planner, reporter`:
the step dispatcher (`research_team`) IS invoked and the planner runs
twice, refuting "straight from the Planner to the Reporter after exactly
one Planner invocation, with no Step-Dispatcher invocation". -/
theorem c4_first_draft_counterexample :
    (runResearch scenarioOracles {max_plan_iterations := 1} [] 10 scenarioInit
        "coordinator").map Prod.fst = .ok scenarioTrace ∧
    scenarioTrace.count "planner" = 2 ∧
    "research_team" ∈ scenarioTrace :=
  ⟨rfl, by decide, by decide⟩

/-- C4, amended: with `max_plan_iterations = 1`, a first planner
invocation whose model produces a plan lacking context stores it, sets
`plan_iterations` to 1 and transitions to the step dispatcher
(`research_team`), not the reporter; the reporter is only reached by a
later planner invocation, which at `plan_iterations ≥ 1` is forced
straight to it. -/
theorem c4_first_draft_amended (main_llm reasoning_llm : Option PlannerOutcome)
    (state : RState) (plan : Plan)
    (hiter : state.plan_iterations = 0)
    (hsel : (reasoning_llm <|> main_llm) = some (Except.ok plan))
    (hctx : plan.has_enough_context = false) :
    (planner_node main_llm reasoning_llm {max_plan_iterations := 1} state).goto =
      "research_team" ∧
    (planner_node main_llm reasoning_llm {max_plan_iterations := 1}
      state).update.plan_iterations = some 1 ∧
    (∀ (state' : RState) (m r : Option PlannerOutcome),
      state'.plan_iterations ≥ 1 →
      (planner_node m r {max_plan_iterations := 1} state').goto = "reporter") := by
  have hnode : planner_node main_llm reasoning_llm {max_plan_iterations := 1} state =
      ⟨"research_team",
       {messages := [{role := .assistant, content := planToJson plan, name := some "planner"}],
        current_plan := some (.plan plan), plan_iterations := some 1}⟩ := by
    unfold planner_node
    rw [hiter, hsel]
    simp [hctx]
  refine ⟨by rw [hnode], by rw [hnode], fun state' m r h => ?_⟩
  unfold planner_node
  simp [h]

/-- C4, witness for the amended claim. -/
theorem c4_first_draft_witness :
    (planner_node (some (.ok draftPlan)) none {max_plan_iterations := 1}
      scenarioInit).goto = "research_team" :=
  (c4_first_draft_amended (some (.ok draftPlan)) none scenarioInit draftPlan
    rfl rfl rfl).1

/-- C5: when the structured invocation raises, the fallback of
`team_supervisor_node` regex-extracts the JSON object from the raw text
and reads `next`; on the spec's model output it recovers `"Researcher"`
(for any member list — the extraction tier never consults it), the node
then routes to `Researcher` whenever that member is registered, and the
`make_supervisor_node` fallback recovers the same decision. -/
theorem c5_fallback_extraction (members : List String) (state : TeamState)
    (hstop : state.should_stop = false) (hmem : "Researcher" ∈ members) :
    supervisorFallbackParse members c5content = "Researcher" ∧
    (team_supervisor_node members ⟨.error (), c5content⟩ state).goto = "Researcher" ∧
    makeSupervisorSelect members ⟨.error (), c5content⟩ = "Researcher" := by
  have h1 : supervisorFallbackParse members c5content = "Researcher" := rfl
  have hc : members.contains "Researcher" = true := by simpa using hmem
  refine ⟨h1, ?_, rfl⟩
  simp [team_supervisor_node, hstop, h1, hc, hmem]

/-- C5, witness. -/
theorem c5_fallback_extraction_witness :
    (team_supervisor_node ["Researcher", "Coder"] ⟨.error (), c5content⟩
      {messages := [sampleUserMessage]}).goto = "Researcher" :=
  (c5_fallback_extraction ["Researcher", "Coder"] {messages := [sampleUserMessage]}
    rfl (by decide)).2.1

/-- C6, counterexample: only `TeamGraphBuilder.team_supervisor_node`
self-loops on an unknown member name.  The other cited supervisor —
`make_supervisor_node`'s `supervisor_node` — performs no membership check
at all: on the decision `Ghostwriter` (recovered here by its regex
fallback) it forwards `Ghostwriter` itself as the goto, not
`"supervisor"`, even though no such member is registered. -/
theorem c6_unknown_member_counterexample :
    (make_supervisor_node_cmd ["Researcher", "Coder"]
      ⟨.error (), ghostContent⟩).goto = "Ghostwriter" ∧
    "Ghostwriter" ∉ ["Researcher", "Coder"] ∧
    ("Ghostwriter" : String) ≠ "supervisor" ∧
    ("Ghostwriter" : String) ≠ "__end__" :=
  ⟨rfl, by decide, by decide, by decide⟩

/-- C6, amended: `team_supervisor_node` maps every routing decision that
is neither `FINISH` nor a registered member name to a `"supervisor"`
self-loop (with a logged warning) and never raises;
`make_supervisor_node`'s `supervisor_node` instead forwards any non-FINISH
decision as the goto unchanged, registered or not. -/
theorem c6_unknown_member_amended :
    (∀ (members : List String) (raw : String) (s : TeamState) (name : String),
      s.should_stop = false → name ∉ members → name ≠ "FINISH" →
      team_supervisor_node members ⟨.ok name, raw⟩ s =
        ⟨"supervisor", {next := some "supervisor"}⟩) ∧
    (∀ (members : List String) (raw : String) (name : String), name ≠ "FINISH" →
      (make_supervisor_node_cmd members ⟨.ok name, raw⟩).goto = name) := by
  constructor
  · intro members raw s name hstop hnm hfin
    have hc : members.contains name = false := by simpa using hnm
    simp [team_supervisor_node, hstop, hfin, hc, hnm]
  · intro members raw name hfin
    simp [make_supervisor_node_cmd, makeSupervisorSelect, hfin]

/-- C6, witness. -/
theorem c6_unknown_member_witness :
    team_supervisor_node ["Researcher"] ⟨.ok "Ghostwriter", ""⟩ {} =
      ⟨"supervisor", {next := some "supervisor"}⟩ ∧
    (make_supervisor_node_cmd ["Researcher"] ⟨.ok "Ghostwriter", ""⟩).goto =
      "Ghostwriter" :=
  ⟨c6_unknown_member_amended.1 ["Researcher"] "" {} "Ghostwriter" rfl (by decide)
      (by decide),
   c6_unknown_member_amended.2 ["Researcher"] "" "Ghostwriter" (by decide)⟩

/-- C7, counterexample: neither fatal condition surfaces an error.  A
planner invocation with no language model configured, and a
first-iteration plan parse failure with no prior plan, both return the
normal `Command(goto="__end__")` with an empty update — byte-for-byte the
same value as a perfectly normal terminal transition (third conjunct: the
coordinator's no-tool-call termination on an empty history) — instead of
aborting the run. -/
theorem c7_fatal_swallowed_counterexample :
    planner_node none none {max_plan_iterations := 1} {} = ⟨"__end__", {}⟩ ∧
    planner_node (some (.error ())) none {max_plan_iterations := 1} {} =
      ⟨"__end__", {}⟩ ∧
    coordinator_node (.ok {tool_calls := []}) {} = ⟨"__end__", {}⟩ :=
  ⟨rfl, rfl, rfl⟩

/-- C7, amended: below the iteration ceiling, a planner invocation with no
language model configured logs and returns `Command(goto="__end__")` with
an empty update, and a model failure at `plan_iterations = 0` does the
same — both are swallowed as normal terminal transitions; no run-level
error reaches the caller. -/
theorem c7_fatal_swallowed_amended (state : RState) (cfg : RConfig)
    (hlt : state.plan_iterations < cfg.max_plan_iterations) :
    (∀ main_llm reasoning_llm : Option PlannerOutcome,
      (reasoning_llm <|> main_llm) = none →
      planner_node main_llm reasoning_llm cfg state = ⟨"__end__", {}⟩) ∧
    (state.plan_iterations = 0 →
      ∀ main_llm reasoning_llm : Option PlannerOutcome,
      (reasoning_llm <|> main_llm) = some (.error ()) →
      planner_node main_llm reasoning_llm cfg state = ⟨"__end__", {}⟩) := by
  have hguard : ¬ state.plan_iterations ≥ cfg.max_plan_iterations := not_le.mpr hlt
  constructor
  · intro main_llm reasoning_llm hsel
    unfold planner_node
    simp [hguard, hsel]
  · intro h0 main_llm reasoning_llm hsel
    have hne : ¬ cfg.max_plan_iterations = 0 := by omega
    unfold planner_node
    simp [hguard, hsel, h0, hne]

/-- C7, witness. -/
theorem c7_fatal_swallowed_witness :
    planner_node none none {max_plan_iterations := 1} {locale := some "en-US"} =
      ⟨"__end__", {}⟩ :=
  (c7_fatal_swallowed_amended {locale := some "en-US"} {max_plan_iterations := 1}
    (by decide)).1 none none rfl

/-- C8: a team member whose main-agent result's last message carries tool
calls is routed to its dedicated `tools_<member_name>` node (carrying that
message), a member whose last message is plain gets its reply wrapped as a
user-role message `"<member>: <content>"` whose `name` is the member's
name and routed to the supervisor, and the tool-node naming is injective,
so distinct members' tool nodes never collide. -/
theorem c8_member_routing (members : List String) (member_name : String)
    (ms : List Message) (last : Message) (state : TeamState)
    (hstop : state.should_stop = false) (hmem : member_name ∈ members) :
    (last.tool_calls ≠ [] →
      team_member_node members member_name (some (ms ++ [last])) state =
        ⟨get_tools_node_name member_name,
         {messages := [last], next := some (get_tools_node_name member_name)}⟩) ∧
    (last.tool_calls = [] →
      team_member_node members member_name (some (ms ++ [last])) state =
        ⟨"supervisor",
         {messages := [{role := .user, content := member_name ++ ": " ++ last.content,
                        name := some member_name}],
          next := some "supervisor"}⟩) ∧
    get_tools_node_name member_name = "tools_" ++ member_name ∧
    (∀ a b : String, get_tools_node_name a = get_tools_node_name b → a = b) := by
  have hc : members.contains member_name = true := by simpa using hmem
  have hlast : (ms ++ [last]).getLast? = some last := by simp
  refine ⟨fun htc => ?_, fun htc => ?_, rfl, fun a b h => ?_⟩
  · simp [team_member_node, hstop, hc, hlast, htc, hmem]
  · simp [team_member_node, hstop, hc, hlast, htc, hmem]
  · have h2 := congrArg String.data h
    simp [get_tools_node_name, String.data_append] at h2
    exact String.ext h2

/-- C8, witness. -/
theorem c8_member_routing_witness :
    team_member_node ["Researcher"] "Researcher" (some [toolCallMessage]) {} =
      ⟨"tools_Researcher",
       {messages := [toolCallMessage], next := some "tools_Researcher"}⟩ ∧
    team_member_node ["Researcher"] "Researcher" (some [plainReplyMessage]) {} =
      ⟨"supervisor",
       {messages := [{role := .user, content := "Researcher: done the work",
                      name := some "Researcher"}],
        next := some "supervisor"}⟩ :=
  ⟨(c8_member_routing ["Researcher"] "Researcher" [] toolCallMessage {}
      rfl (by decide)).1 (by decide),
   (c8_member_routing ["Researcher"] "Researcher" [] plainReplyMessage {}
      rfl (by decide)).2.1 rfl⟩

/-- C9: the coordinator routes onward exactly when the model response
carries at least one tool call of any name (to the background investigator
when enabled, else to the planner), and returns the normal terminal
command — surfacing no error — on an empty incoming history, on a
response with zero tool calls, and when the model invocation raises. -/
theorem c9_coordinator_routing (state : RState) (r : CoordResponse) :
    (state.messages ≠ [] → r.tool_calls ≠ [] →
      (coordinator_node (.ok r) state).goto =
        if state.enable_background_investigation then "background_investigator"
        else "planner") ∧
    (state.messages ≠ [] →
      ((coordinator_node (.ok r) state).goto ≠ "__end__" ↔ r.tool_calls ≠ [])) ∧
    (state.messages ≠ [] → r.tool_calls = [] →
      coordinator_node (.ok r) state =
        ⟨"__end__", {locale := some (state.locale.getD "en-US")}⟩) ∧
    (state.messages = [] → ∀ llm, coordinator_node llm state = ⟨"__end__", {}⟩) ∧
    (state.messages ≠ [] → coordinator_node (.error ()) state = ⟨"__end__", {}⟩) := by
  refine ⟨fun hne htc => ?_, fun hne => ?_, fun hne htc => ?_, fun he llm => ?_,
    fun hne => ?_⟩
  · have hl : r.tool_calls.length > 0 := List.length_pos.mpr htc
    simp [coordinator_node, hne, hl]
  · by_cases htc : r.tool_calls = []
    · simp [coordinator_node, hne, htc]
    · have hl : r.tool_calls.length > 0 := List.length_pos.mpr htc
      simp only [coordinator_node, hne, hl]
      constructor
      · intro _; exact htc
      · intro _
        simp [hne, hl]
        split <;> decide
  · simp [coordinator_node, hne, htc]
  · simp [coordinator_node, he]
  · simp [coordinator_node, hne]

/-- C9, witness: a tool call whose name is not `handoff_to_planner` still
routes onward (here to the planner, background investigation being
disabled), and a model failure terminates normally. -/
theorem c9_coordinator_routing_witness :
    (coordinator_node (.ok {tool_calls := [{name := "some_other_tool"}]})
      scenarioInit).goto = "planner" ∧
    coordinator_node (.error ()) scenarioInit = ⟨"__end__", {}⟩ := by
  constructor
  · have := (c9_coordinator_routing scenarioInit
      {tool_calls := [{name := "some_other_tool"}]}).1 (by decide) (by decide)
    simpa using this
  · exact (c9_coordinator_routing scenarioInit {tool_calls := []}).2.2.2.2 (by decide)

/-- C10: invoked with an unset `current_plan`, the reporter raises
(`AttributeError` on `current_plan.title`); under the precondition that
`current_plan` is a validated `Plan`, it returns the bare patch
`{"final_report": <model response>}`, and applying that patch to any state
changes `final_report` and nothing else. -/
theorem c10_reporter_contract (llm : String → List String → String) (state : RState) :
    (state.current_plan = .unset →
      reporter_node llm state = .error (.attributeError "NoneType" "title")) ∧
    (∀ p : Plan, state.current_plan = .plan p →
      reporter_node llm state =
        .ok {final_report := some (llm
          ("# Research Requirements\n\n## Task\n\n" ++ p.title ++
           "\n\n## Description\n\n" ++ p.thought) state.observations)}) ∧
    (∀ (u : RUpdate) (p : Plan), state.current_plan = .plan p →
      reporter_node llm state = .ok u →
      u.final_report ≠ none ∧
      (∀ s' : RState,
        (s'.applyUpdate u).messages = s'.messages ∧
        (s'.applyUpdate u).locale = s'.locale ∧
        (s'.applyUpdate u).observations = s'.observations ∧
        (s'.applyUpdate u).plan_iterations = s'.plan_iterations ∧
        (s'.applyUpdate u).current_plan = s'.current_plan ∧
        (s'.applyUpdate u).team_members = s'.team_members ∧
        (s'.applyUpdate u).enable_background_investigation =
          s'.enable_background_investigation)) := by
  refine ⟨fun h => by simp [reporter_node, h], fun p hp => by simp [reporter_node, hp],
    ?_⟩
  intro u p hp hok
  rw [show reporter_node llm state = .ok {final_report := some (llm
      ("# Research Requirements\n\n## Task\n\n" ++ p.title ++
       "\n\n## Description\n\n" ++ p.thought) state.observations)} from by
    simp [reporter_node, hp]] at hok
  obtain rfl : u = {final_report := some (llm
      ("# Research Requirements\n\n## Task\n\n" ++ p.title ++
       "\n\n## Description\n\n" ++ p.thought) state.observations)} := by
    injection hok with h
    exact h.symm
  refine ⟨by simp, fun s' => ?_⟩
  simp [RState.applyUpdate]

/-- C10, witness. -/
theorem c10_reporter_contract_witness :
    reporter_node (fun _ _ => "the report") dispatchState =
      .ok {final_report := some "the report"} ∧
    reporter_node (fun _ _ => "the report") {} =
      .error (.attributeError "NoneType" "title") :=
  ⟨(c10_reporter_contract (fun _ _ => "the report") dispatchState).2.1
      samplePlanABC rfl,
   (c10_reporter_contract (fun _ _ => "the report") {}).1 rfl⟩

end Autotask
